import Mathlib

/-!
Shallow embedding of `src/GenAIAnalyticsDashboard.js` (the Gen-AI Analytics
dashboard): the query-session reducer, the mock result synthesizer, the
growth-rate calculation, the insight generator and the suggestion scorer,
together with theorems settling the specification's claims about them.

Modelling conventions:
  * JavaScript numbers are modelled as exact rationals (`ℚ`).  All numeric
    values appearing in the program and in the claims are small decimals, so
    IEEE-754 double rounding never separates the model from the program on
    the inputs at issue; division by zero, which doubles resolve to
    `Infinity` / `-Infinity` / `NaN`, is modelled explicitly at its single
    occurrence (`calculateGrowthRate`).
  * Strings are processed through character-list helpers (`occursIn`,
    `jsTrim`, `sLower`, ...) that mirror the JavaScript string methods used
    by the source (`includes`, `trim`, `toLowerCase`, `startsWith`,
    `split(/\s+/)`).  Unicode-specific behaviour (non-ASCII case folding,
    non-ASCII whitespace) is outside the inputs the program manipulates and
    is not modelled.
  * `new Date().toLocaleString()` is an environment-supplied string; it
    enters the model as an explicit parameter of the success action.
-/

/-! ## JavaScript string primitives -/

/-- Lists `sub` being a prefix of the second list, as a boolean.
Helper for `occursIn`. -/
def leadsWith : List Char → List Char → Bool
  | [], _ => true
  | _ :: _, [] => false
  | a :: as, b :: bs => a == b && leadsWith as bs

/-- Lists: `sub` occurs as a contiguous sublist of `hay`.  Helper for
`jsIncludes`. -/
def occursIn (sub : List Char) : List Char → Bool
  | [] => leadsWith sub []
  | c :: rest => leadsWith sub (c :: rest) || occursIn sub rest

/-- Model of JavaScript `s.includes(sub)`: substring containment. -/
def jsIncludes (s sub : String) : Bool :=
  occursIn sub.data s.data

/-- Model of JavaScript `s.startsWith(p)`. -/
def jsStartsWith (s p : String) : Bool :=
  leadsWith p.data s.data

/-- Model of JavaScript `s.toLowerCase()` (ASCII case folding). -/
def sLower (s : String) : String :=
  ⟨s.data.map Char.toLower⟩

/-- Model of JavaScript `s.trim()`: strip leading and trailing whitespace. -/
def jsTrim (s : String) : String :=
  ⟨((s.data.dropWhile Char.isWhitespace).reverse.dropWhile Char.isWhitespace).reverse⟩

/-- Splitting a character list at every occurrence of the separator
character, keeping empty fragments (helper for the numeric parser). -/
def splitOnChar (sep : Char) : List Char → List (List Char)
  | [] => [[]]
  | c :: rest =>
      if c == sep then [] :: splitOnChar sep rest
      else
        match splitOnChar sep rest with
        | [] => [[c]]
        | t :: ts => (c :: t) :: ts

/-- Fuelled worker for `jsSplitWhitespace`: fragments between maximal
whitespace runs, keeping empty edge fragments as `String.split(/\s+/)`
does.  The fuel is the length of the input, which bounds the recursion. -/
def wsSplitAux : ℕ → List Char → List Char → List (List Char)
  | _, acc, [] => [acc.reverse]
  | 0, acc, _ :: _ => [acc.reverse]
  | fuel + 1, acc, c :: rest =>
      if c.isWhitespace then
        acc.reverse :: wsSplitAux fuel [] (rest.dropWhile Char.isWhitespace)
      else
        wsSplitAux fuel (c :: acc) rest

/-- Model of JavaScript `s.split(/\s+/)`: split at maximal whitespace runs.
A leading (resp. trailing) run contributes a leading (resp. trailing) empty
fragment, exactly as in JavaScript. -/
def jsSplitWhitespace (s : String) : List String :=
  (wsSplitAux s.data.length [] s.data).map (fun l => (⟨l⟩ : String))

/-! ## JavaScript numeric coercions

`generateInsights` compares and formats `results.summary.averageGrowth`,
which at every call site is a *string* produced by `calculateGrowthRate`;
JavaScript silently coerces it through `ToNumber`.  The fragment of
`ToNumber` exercised here covers optional-sign decimal literals, the
`Infinity` forms, the empty string (which converts to `0`) and everything
else converting to `NaN`; exponent and radix-prefixed literals never occur
in this program and are not modelled. -/

/-- The values a JavaScript numeric coercion can take in this program. -/
inductive JsNum where
  | fin (q : ℚ)
  | inf
  | negInf
  | nan
deriving DecidableEq

/-- Numeric value of a list of decimal digits. -/
def natOfDigits (l : List Char) : ℕ :=
  l.foldl (fun n c => 10 * n + (c.toNat - 48)) 0

/-- Decimal value of an unsigned literal split at the decimal point:
integer digits and fraction digits. -/
def decimalValue (intPart fracPart : List Char) : ℚ :=
  (natOfDigits intPart : ℚ) + (natOfDigits fracPart : ℚ) / (10 : ℚ) ^ fracPart.length

/-- Parse an unsigned decimal literal (`"12"`, `"12.5"`, `".5"`, `"5."`),
returning `none` when the text is not such a literal. -/
def parseUnsignedDecimal (l : List Char) : Option ℚ :=
  match splitOnChar '.' l with
  | [a] =>
      if a ≠ [] ∧ a.all Char.isDigit then some (decimalValue a []) else none
  | [a, b] =>
      if (a ++ b) ≠ [] ∧ (a ++ b).all Char.isDigit then some (decimalValue a b)
      else none
  | _ => none

/-- Model of JavaScript `ToNumber` on strings, restricted to the literal
forms reachable in this program. -/
def jsToNumber (s : String) : JsNum :=
  let t := jsTrim s
  if t = "" then .fin 0
  else if t = "Infinity" ∨ t = "+Infinity" then .inf
  else if t = "-Infinity" then .negInf
  else
    match t.data with
    | '-' :: rest =>
        match parseUnsignedDecimal rest with
        | some q => .fin (-q)
        | none => .nan
    | '+' :: rest =>
        match parseUnsignedDecimal rest with
        | some q => .fin q
        | none => .nan
    | rest =>
        match parseUnsignedDecimal rest with
        | some q => .fin q
        | none => .nan

/-- Model of the JavaScript comparison `s > 0` for a string `s` (`ToNumber`
coercion; `NaN > 0` is false). -/
def jsGtZero (s : String) : Bool :=
  match jsToNumber s with
  | .fin q => decide (0 < q)
  | .inf => true
  | .negInf => false
  | .nan => false

/-- Fraction digits of a non-negative rational below 1, emitted until the
remainder vanishes (JavaScript number-to-string drops trailing zeros).  The
fuel bounds the expansion; every value reaching this function in the
program is a finite decimal, so the fuel is never exhausted there. -/
def fracDigits : ℕ → ℚ → List Char
  | 0, _ => []
  | fuel + 1, r =>
      if r = 0 then []
      else
        let r10 := r * 10
        let d := (⌊r10⌋).toNat
        Char.ofNat (48 + d) :: fracDigits fuel (r10 - (d : ℚ))

/-- Rendering of a non-negative rational the way JavaScript stringifies the
corresponding number: integer part, then fraction digits with trailing
zeros dropped and no decimal point when the fraction is zero. -/
def renderDecimal (q : ℚ) : String :=
  let ip := (⌊q⌋).toNat
  let ds := fracDigits 32 (q - (ip : ℚ))
  if ds = [] then Nat.repr ip else Nat.repr ip ++ "." ++ (⟨ds⟩ : String)

/-- Model of the JavaScript template fragment `Math.abs(s)` interpolated
into a string, for a string-valued `s`: coerce, take the absolute value,
stringify. -/
def jsAbsNumberString (s : String) : String :=
  match jsToNumber s with
  | .fin q => renderDecimal |q|
  | .inf => "Infinity"
  | .negInf => "Infinity"
  | .nan => "NaN"

/-- Model of JavaScript `x.toFixed(2)` in the exact-decimal idealization:
the sign of the value, then the integer nearest `|x| * 100` (ties away from
zero, i.e. the larger integer, per the `toFixed` specification) printed
with exactly two fraction digits.  The exponential form for `|x| ≥ 1e21`
never occurs in this program and is not modelled. -/
def jsToFixed2 (q : ℚ) : String :=
  let sign := if q < 0 then "-" else ""
  let m := (⌊|q| * 100 + 1 / 2⌋).toNat
  let frac := m % 100
  sign ++ Nat.repr (m / 100) ++ "." ++
    (if frac < 10 then "0" ++ Nat.repr frac else Nat.repr frac)

/-! ## Data model

Shapes of the objects the dashboard manipulates, with the field names of
the source (`name` / `revenue` / `customers` / `products`, `query` /
`timestamp` / `results`, and the reducer state fields). -/

/-- One row of the synthesized dataset (`baseData` entries). -/
structure DataPoint where
  name : String
  revenue : ℚ
  customers : ℚ
  products : ℚ
deriving DecidableEq

instance : Inhabited DataPoint := ⟨⟨"", 0, 0, 0⟩⟩

/-- The `summary` object built by `generateMockResults`. -/
structure SummaryStats where
  totalRevenue : ℚ
  totalCustomers : ℚ
  averageGrowth : String
deriving DecidableEq

/-- A full synthesizer result: `{ data, summary, insights }`. -/
structure AnalyticsResult where
  data : List DataPoint
  summary : SummaryStats
  insights : List String
deriving DecidableEq

/-- The two summary fields `generateInsights` reads
(`results.summary.averageGrowth` and `results.summary.totalCustomers`);
`generateMockResults` builds exactly this object for the insight call. -/
structure InsightSummary where
  averageGrowth : String
  totalCustomers : ℚ
deriving DecidableEq

/-- The `results` argument of `generateInsights`: an object with a
`summary` field. -/
structure InsightResults where
  summary : InsightSummary
deriving DecidableEq

/-! ## Growth rate calculation (`calculateGrowthRate`) -/

/-- Embedding of `calculateGrowthRate` (source lines 116-126):

    if (!data || data.length < 2) return 'N/A';
    try {
      const firstValue = data[0].revenue;
      const lastValue = data[data.length - 1].revenue;
      return ((lastValue - firstValue) / firstValue * 100).toFixed(2);
    } catch (error) { return 'Unavailable'; }

JavaScript number division does not throw: when `firstValue` is `0` the
quotient is `Infinity`, `-Infinity` or `NaN` according to the sign of the
numerator, and `toFixed(2)` stringifies those values verbatim, so the
`catch` branch is unreachable on well-formed rows and the `'Unavailable'`
return is dead code for them; the zero-divisor case is therefore spelled
out below.  The two array accesses are modelled with `List.getD`; both
indices are in range under the `length < 2` guard, so the default is
never consulted. -/
def calculateGrowthRate (data : List DataPoint) : String :=
  if data.length < 2 then "N/A"
  else
    let firstValue := (data.getD 0 default).revenue
    let lastValue := (data.getD (data.length - 1) default).revenue
    if firstValue = 0 then
      if 0 < lastValue - firstValue then "Infinity"
      else if lastValue - firstValue < 0 then "-Infinity"
      else "NaN"
    else jsToFixed2 ((lastValue - firstValue) / firstValue * 100)

/-! ## Insight generation (`generateInsights`) -/

/-- One entry of the `insightRules` array: a predicate on the query and
the produced sentence (the source wraps the sentence in a thunk; the
computation is pure, so the thunk is evaluated in place). -/
structure InsightRule where
  condition : String → Bool
  insight : String

/-- Embedding of the `insightRules` array (source lines 130-143).  Note
that the conditions use plain `q.includes(...)`: the matching is
case-sensitive.  The comparison `averageGrowth > 0` and the interpolation
`Math.abs(averageGrowth)` coerce the string field through `ToNumber`. -/
def insightRules (results : InsightResults) : List InsightRule :=
  [ ⟨fun q => jsIncludes q "revenue",
      "Revenue " ++ (if jsGtZero results.summary.averageGrowth then "increased" else "decreased")
        ++ " by " ++ jsAbsNumberString results.summary.averageGrowth ++ "%"⟩,
    ⟨fun q => jsIncludes q "customer",
      "Customer base shows "
        ++ (if 1500 < results.summary.totalCustomers then "strong" else "moderate")
        ++ " growth"⟩,
    ⟨fun q => jsIncludes q "product",
      "Product portfolio demonstrates consistent performance"⟩ ]

/-- Embedding of `generateInsights` (source lines 129-147): first matching
rule wins (`Array.prototype.find`), with a fixed fallback sentence. -/
def generateInsights (query : String) (results : InsightResults) : String :=
  match (insightRules results).find? (fun rule => rule.condition query) with
  | some rule => rule.insight
  | none => "General performance remains stable"

/-! ## Mock result synthesizer (`generateMockResults`) -/

/-- The fixed four-row dataset of `generateMockResults` (source lines
245-250). -/
def baseData : List DataPoint :=
  [ ⟨"Q1 2023", 450000, 1200, 50⟩,
    ⟨"Q2 2023", 520000, 1350, 55⟩,
    ⟨"Q3 2023", 610000, 1500, 60⟩,
    ⟨"Q4 2023", 680000, 1650, 65⟩ ]

/-- Embedding of `generateMockResults` (source lines 243-267): the fixed
dataset, summed summary statistics (`Array.prototype.reduce` is a left
fold), the growth rate, and a single generated insight. -/
def generateMockResults (query : String) : AnalyticsResult :=
  { data := baseData,
    summary :=
      { totalRevenue := baseData.foldl (fun sum item => sum + item.revenue) 0,
        totalCustomers := baseData.foldl (fun sum item => sum + item.customers) 0,
        averageGrowth := calculateGrowthRate baseData },
    insights :=
      [ generateInsights query
          ⟨⟨calculateGrowthRate baseData,
            baseData.foldl (fun sum item => sum + item.customers) 0⟩⟩ ] }

/-! ## Query session state machine (`queryReducer`) -/

/-- One history entry (`state.queries` element). -/
structure QueryRecord where
  query : String
  timestamp : String
  results : AnalyticsResult
deriving DecidableEq

/-- The reducer state (`initialState` shape, source lines 101-108). -/
structure DashboardState where
  queries : List QueryRecord
  currentQuery : String
  currentResults : Option AnalyticsResult
  isProcessing : Bool
  error : Option String
  suggestionMode : Bool
deriving DecidableEq

/-- The reducer actions.  `processQuerySuccess` carries the payload and
the environment-supplied `new Date().toLocaleString()` string. -/
inductive DashAction where
  | setCurrentQuery (payload : String)
  | submitQuery
  | processQuerySuccess (payload : AnalyticsResult) (now : String)
  | processQueryFailure (payload : String)
  | clearHistory
deriving DecidableEq

/-- Embedding of `queryReducer` (source lines 8-56).  The `default` branch
returns the state unchanged and is unreachable for the five dispatched
action types, which the `DashAction` type enumerates exhaustively. -/
def queryReducer (state : DashboardState) : DashAction → DashboardState
  | .setCurrentQuery payload =>
      { state with
          currentQuery := payload,
          suggestionMode := jsStartsWith payload "/",
          error := none }
  | .submitQuery =>
      { state with isProcessing := true, error := none }
  | .processQuerySuccess payload now =>
      { state with
          isProcessing := false,
          queries := state.queries ++ [⟨state.currentQuery, now, payload⟩],
          currentResults := some payload,
          currentQuery := "",
          error := none }
  | .processQueryFailure payload =>
      { state with
          isProcessing := false,
          error := some payload,
          currentResults := none }
  | .clearHistory =>
      { state with queries := [], currentResults := none, error := none }

/-- The `initialState` object (source lines 101-108). -/
def initialState : DashboardState :=
  { queries := [],
    currentQuery := "",
    currentResults := none,
    isProcessing := false,
    error := none,
    suggestionMode := false }

/-- The state reached from `initialState` by a sequence of dispatched
actions. -/
def runActions (acts : List DashAction) : DashboardState :=
  acts.foldl queryReducer initialState

/-- Embedding of `handleQuerySubmit` (source lines 211-240).  The first
component is the state after the synchronously dispatched action; the
second is the payload of the `PROCESS_QUERY_SUCCESS` dispatch scheduled by
`setTimeout` (`none` when the empty-query guard fires and nothing is
scheduled).  `generateMockResults` never throws, so the `catch` branch
dispatching a processing failure is dead code. -/
def handleQuerySubmit (state : DashboardState) :
    DashboardState × Option AnalyticsResult :=
  if jsTrim state.currentQuery = "" then
    (queryReducer state (.processQueryFailure "Query cannot be empty"), none)
  else
    (queryReducer state .submitQuery, some (generateMockResults state.currentQuery))

/-- Embedding of the Rerun button handler (source lines 497-507): it
dispatches `PROCESS_QUERY_SUCCESS` with the stored `queryItem.results` as
payload, without calling `generateMockResults`. -/
def rerunRecord (state : DashboardState) (queryItem : QueryRecord) (now : String) :
    DashboardState :=
  queryReducer state (.processQuerySuccess queryItem.results now)

/-! ## Suggestion scorer (`handleQueryChange`) -/

/-- One displayed suggestion: either a command entry (an
`Object.entries(COMMAND_SHORTCUTS)` pair) or a free-text phrase. -/
inductive Suggestion where
  | command (cmd description : String)
  | phrase (text : String)
deriving DecidableEq

/-- The `AI_SUGGESTIONS` phrase list (source lines 59-81), in order. -/
def AI_SUGGESTIONS : List String :=
  [ "Top performing products this quarter",
    "Sales conversion rate by channel",
    "Market share analysis in key regions",
    "Operational efficiency metrics",
    "Seasonal trends impact on business",
    "Monthly revenue breakdown by product category",
    "Year-over-year revenue growth analysis",
    "Revenue forecast for next quarter",
    "Impact of pricing changes on revenue",
    "Revenue attribution by marketing channel",
    "Customer lifetime value analysis",
    "Customer segmentation by spending patterns",
    "Churn rate analysis for premium customers",
    "New vs returning customer revenue",
    "Customer acquisition cost trends",
    "Sales performance by region",
    "Customer retention rates",
    "Product revenue trends",
    "Marketing campaign effectiveness",
    "Quarterly financial overview",
    "Competitive market analysis" ]

/-- The `COMMAND_SHORTCUTS` mapping (source lines 83-89) in its insertion
order, which is the iteration order of `Object.entries` for these
string keys. -/
def COMMAND_SHORTCUTS : List (String × String) :=
  [ ("/revenue", "Detailed revenue breakdown"),
    ("/customers", "Comprehensive customer metrics"),
    ("/top-products", "Ranking of top-performing products"),
    ("/regional-performance", "Comparative regional performance analysis"),
    ("/forecast", "Revenue and growth prediction") ]

/-- Embedding of the suggestion computation of `handleQueryChange`
(source lines 150-194); the `SET_CURRENT_QUERY` dispatch the handler also
performs is the reducer transition modelled separately.  Command mode
filters the shortcut entries by case-insensitive containment of the whole
query in the token; free-text mode scores every phrase (base 10 for
containing the whole lowercase query, plus 5 per keyword of length > 2
contained), drops zero scores, sorts stably by descending score (the
stable `Array.prototype.sort` with comparator `b.score - a.score`) and
keeps the first 7.  An empty trimmed query yields no suggestions. -/
def handleQueryChangeSuggestions (value : String) : List Suggestion :=
  if jsStartsWith value "/" then
    (COMMAND_SHORTCUTS.filter
        (fun cmd => jsIncludes (sLower cmd.1) (sLower value))).map
      (fun cmd => Suggestion.command cmd.1 cmd.2)
  else if 0 < (jsTrim value).length then
    let keywords :=
      (jsSplitWhitespace (sLower value)).filter (fun word => 2 < word.length)
    let scoredSuggestions := AI_SUGGESTIONS.map (fun suggestion =>
      let suggestionLower := sLower suggestion
      let base : ℕ := if jsIncludes suggestionLower (sLower value) then 10 else 0
      let score := keywords.foldl
        (fun sc keyword => if jsIncludes suggestionLower keyword then sc + 5 else sc)
        base
      (suggestion, score))
    ((((scoredSuggestions.filter (fun item => 0 < item.2)).mergeSort
          (fun a b => decide (b.2 ≤ a.2))).map
        (fun item => Suggestion.phrase item.1)).take 7)
  else []

/-! ## Specification-side definitions

These transcribe the specification's wording where it differs from the
code, for refinement comparisons. -/

/-- The growth-rate contract as the specification words it: `"N/A"` for
fewer than two rows, `"Unavailable"` when the first row's revenue is zero,
otherwise `(last - first) / first * 100` rounded to two decimals and
rendered as a string. -/
def specGrowthRate (data : List DataPoint) : String :=
  if data.length < 2 then "N/A"
  else if (data.getD 0 default).revenue = 0 then "Unavailable"
  else
    jsToFixed2 (((data.getD (data.length - 1) default).revenue - (data.getD 0 default).revenue)
      / (data.getD 0 default).revenue * 100)

/-! ## Concrete evaluations used by several claims -/

/-- Evaluation of the rounding at the mock dataset's growth value
`(680000 - 450000) / 450000 * 100 = 460 / 9`. -/
theorem jsToFixed2_at_mock_growth : jsToFixed2 ((460 : ℚ) / 9) = "51.11" := by
  have h0 : ¬ ((460 : ℚ) / 9 < 0) := by norm_num
  have habs : |(460 : ℚ) / 9| = 460 / 9 := abs_of_nonneg (by norm_num)
  have hfl : ⌊(460 : ℚ) / 9 * 100 + 1 / 2⌋ = 5111 := by norm_num
  simp only [jsToFixed2, h0, if_false, habs, hfl]
  decide

/-- Evaluation of the growth rate on the fixed dataset. -/
theorem calculateGrowthRate_baseData : calculateGrowthRate baseData = "51.11" := by
  have harg : (((680000 : ℚ) - 450000) / 450000 * 100) = 460 / 9 := by norm_num
  simp only [calculateGrowthRate, baseData]
  norm_num [harg, jsToFixed2_at_mock_growth]

/-- Evaluation of the revenue total on the fixed dataset. -/
theorem baseData_totalRevenue :
    baseData.foldl (fun sum item => sum + item.revenue) 0 = (2260000 : ℚ) := by
  simp only [baseData, List.foldl]
  norm_num

/-- Evaluation of the customer total on the fixed dataset. -/
theorem baseData_totalCustomers :
    baseData.foldl (fun sum item => sum + item.customers) 0 = (5700 : ℚ) := by
  simp only [baseData, List.foldl]
  norm_num

/-! ## Claims -/

/-- Claim C2 (amended): `calculateGrowthRate` agrees with the
specification's growth-rate contract on every dataset with fewer than two
rows (`"N/A"`) and on every dataset whose first revenue is nonzero (the
percentage change rounded to two decimals); but when the dataset has at
least two rows and the first revenue is zero, JavaScript division by zero
makes it return `"Infinity"`, `"-Infinity"` or `"NaN"` according to the
sign of the numerator, not the specified `"Unavailable"`. -/
theorem claim2_growth_rate_amended (data : List DataPoint) :
    (data.length < 2 ∨ (data.getD 0 default).revenue ≠ 0 →
      calculateGrowthRate data = specGrowthRate data) ∧
    (2 ≤ data.length → (data.getD 0 default).revenue = 0 →
      calculateGrowthRate data =
        if 0 < (data.getD (data.length - 1) default).revenue then "Infinity"
        else if (data.getD (data.length - 1) default).revenue < 0 then "-Infinity"
        else "NaN") := by
  constructor
  · intro h
    by_cases hlen : data.length < 2
    · simp only [calculateGrowthRate, specGrowthRate, if_pos hlen]
    · have hrev : (data.getD 0 default).revenue ≠ 0 := h.resolve_left hlen
      simp only [calculateGrowthRate, specGrowthRate, if_neg hlen, if_neg hrev]
  · intro hlen hrev
    have hlen' : ¬ data.length < 2 := by omega
    simp only [calculateGrowthRate, if_neg hlen', hrev, sub_zero, if_true, eq_self_iff_true]

/-- Witness for C2 (amended) at the program's own four-row dataset, whose
first revenue 450000 is nonzero: the code and the specification agree
there. -/
theorem claim2_growth_rate_witness :
    calculateGrowthRate baseData = specGrowthRate baseData :=
  (claim2_growth_rate_amended baseData).1 (Or.inr (by norm_num [baseData]))

/-- A two-row dataset whose first revenue is zero. -/
def zeroRevenueData : List DataPoint :=
  [⟨"Q1", 0, 0, 0⟩, ⟨"Q2", 100, 0, 0⟩]

/-- Counterexample for C2 as stated: on a two-row dataset with first
revenue `0` the code returns `"Infinity"`, not the claimed
`"Unavailable"`. -/
theorem claim2_growth_rate_counterexample :
    (zeroRevenueData.getD 0 default).revenue = 0 ∧ 2 ≤ zeroRevenueData.length ∧
    calculateGrowthRate zeroRevenueData = "Infinity" ∧
    calculateGrowthRate zeroRevenueData ≠ "Unavailable" := by
  have h3 : calculateGrowthRate zeroRevenueData = "Infinity" := by
    simp only [calculateGrowthRate, zeroRevenueData]
    norm_num
  exact ⟨rfl, by decide, h3, by rw [h3]; decide⟩

/-- Claim C6: for every query string the synthesizer returns the fixed
four-row Q1-Q4 dataset, summary totals 2,260,000 revenue and 5,700
customers, growth rate exactly the string `"51.11"`, and an insight list
of length exactly 1. -/
theorem claim6_mock_results (query : String) :
    (generateMockResults query).data =
      [⟨"Q1 2023", 450000, 1200, 50⟩, ⟨"Q2 2023", 520000, 1350, 55⟩,
       ⟨"Q3 2023", 610000, 1500, 60⟩, ⟨"Q4 2023", 680000, 1650, 65⟩] ∧
    (generateMockResults query).summary.totalRevenue = 2260000 ∧
    (generateMockResults query).summary.totalCustomers = 5700 ∧
    (generateMockResults query).summary.averageGrowth = "51.11" ∧
    (generateMockResults query).insights.length = 1 :=
  ⟨rfl, baseData_totalRevenue, baseData_totalCustomers, calculateGrowthRate_baseData, rfl⟩

/-- Claim C8: submitting with an empty or whitespace-only current query
leaves `isProcessing` false (it is never set), records the error message
"Query cannot be empty", and schedules no synthesizer call. -/
theorem claim8_empty_submit (s : DashboardState) (h : jsTrim s.currentQuery = "") :
    (handleQuerySubmit s).1.isProcessing = false ∧
    (handleQuerySubmit s).1.error = some "Query cannot be empty" ∧
    (handleQuerySubmit s).2 = none := by
  simp [handleQuerySubmit, h, queryReducer]

/-- A state whose current query is whitespace-only. -/
def blankQueryState : DashboardState :=
  { initialState with currentQuery := "   " }

/-- Witness for C8 at a concrete whitespace-only state. -/
theorem claim8_empty_submit_witness :
    (handleQuerySubmit blankQueryState).1.isProcessing = false ∧
    (handleQuerySubmit blankQueryState).1.error = some "Query cannot be empty" ∧
    (handleQuerySubmit blankQueryState).2 = none :=
  claim8_empty_submit blankQueryState (by decide)

/-- Claim C9: clearing the history empties the history list and nulls the
current result and error while leaving the current query text, the
processing flag and the suggestion mode untouched, in every state. -/
theorem claim9_clear_history (s : DashboardState) :
    (queryReducer s .clearHistory).queries = [] ∧
    (queryReducer s .clearHistory).currentResults = none ∧
    (queryReducer s .clearHistory).error = none ∧
    (queryReducer s .clearHistory).currentQuery = s.currentQuery ∧
    (queryReducer s .clearHistory).isProcessing = s.isProcessing ∧
    (queryReducer s .clearHistory).suggestionMode = s.suggestionMode :=
  ⟨rfl, rfl, rfl, rfl, rfl, rfl⟩

/-- Claim C10: a blank submission takes exactly the
`PROCESS_QUERY_FAILURE` transition (the same one a synthesizer fault
takes), and that transition nulls `currentResults`, so a blank submission
clears the currently displayed result in every state. -/
theorem claim10_blank_submit_clears_result (s : DashboardState)
    (h : jsTrim s.currentQuery = "") :
    (handleQuerySubmit s).1 =
      queryReducer s (.processQueryFailure "Query cannot be empty") ∧
    (handleQuerySubmit s).1.currentResults = none := by
  constructor
  · simp [handleQuerySubmit, h]
  · simp [handleQuerySubmit, h, queryReducer]

/-- A state displaying a result while the current query is whitespace. -/
def displayedResultState : DashboardState :=
  { queries := [],
    currentQuery := " ",
    currentResults := some (generateMockResults "revenue trends"),
    isProcessing := false,
    error := none,
    suggestionMode := false }

/-- Witness for C10: a concrete state with a displayed result and a
whitespace-only query loses the displayed result on submit. -/
theorem claim10_blank_submit_clears_result_witness :
    (handleQuerySubmit displayedResultState).1.currentResults = none :=
  (claim10_blank_submit_clears_result displayedResultState (by decide)).2

/-- Claim C1 (amended): the Rerun button reuses the stored result by value
— `currentResults` becomes exactly `record.results` with no synthesizer
call (`rerunRecord` dispatches the stored payload verbatim) — but because
it dispatches `PROCESS_QUERY_SUCCESS` it also appends a new history entry
carrying the current query text at rerun time and the rerun payload, and
clears the current query text; the history is not left unchanged. -/
theorem claim1_rerun_amended (s : DashboardState) (item : QueryRecord) (now : String) :
    (rerunRecord s item now).currentResults = some item.results ∧
    (rerunRecord s item now).queries = s.queries ++ [⟨s.currentQuery, now, item.results⟩] ∧
    (rerunRecord s item now).currentQuery = "" ∧
    (rerunRecord s item now).isProcessing = false ∧
    (rerunRecord s item now).error = none :=
  ⟨rfl, rfl, rfl, rfl, rfl⟩

/-- A synthesizer result and a history record holding it, with a session
state displaying them. -/
def sampleResult : AnalyticsResult := generateMockResults "revenue trends"

/-- A stored history record for `sampleResult`. -/
def sampleRecord : QueryRecord := ⟨"revenue trends", "1/1/2024, 9:00:00 AM", sampleResult⟩

/-- A session state whose history is exactly `[sampleRecord]`. -/
def historyState : DashboardState :=
  { queries := [sampleRecord],
    currentQuery := "",
    currentResults := some sampleResult,
    isProcessing := false,
    error := none,
    suggestionMode := false }

/-- Counterexample for C1 as stated: rerunning the sole stored record
changes the history (a second entry is appended), so the history sequence
is not what it was before. -/
theorem claim1_rerun_counterexample :
    (rerunRecord historyState sampleRecord "1/1/2024, 9:05:00 AM").queries ≠
      historyState.queries := by
  intro h
  exact absurd (congrArg List.length h) (by decide)

/-- Claim C5 (amended): the history record appended by
`PROCESS_QUERY_SUCCESS` carries the `currentQuery` at the time the success
action is processed, not the text that was current at submit time: when a
`SET_CURRENT_QUERY` intervenes between submit and success, the appended
record stores the newer text. -/
theorem claim5_success_records_latest_text (s : DashboardState) (newText : String)
    (payload : AnalyticsResult) (now : String) :
    (queryReducer (queryReducer s (.setCurrentQuery newText))
        (.processQuerySuccess payload now)).queries =
      s.queries ++ [⟨newText, now, payload⟩] :=
  rfl

/-- The state after typing "revenue trends" into a fresh session. -/
def typedState : DashboardState :=
  queryReducer initialState (.setCurrentQuery "revenue trends")

/-- The submit step on that state: next state plus scheduled payload. -/
def submitOutcome : DashboardState × Option AnalyticsResult :=
  handleQuerySubmit typedState

/-- The state after the user types a different query while the submitted
computation is still pending. -/
def retypedState : DashboardState :=
  queryReducer submitOutcome.1 (.setCurrentQuery "customer churn")

/-- The state after the pending success resolves (its payload is the one
computed from the submitted text "revenue trends"). -/
def settledState : DashboardState :=
  queryReducer retypedState
    (.processQuerySuccess (generateMockResults "revenue trends") "1/1/2024, 10:00:00 AM")

/-- Counterexample for C5 as stated: the query was submitted as
"revenue trends", the text was changed to "customer churn" before the
success action, and the appended record stores "customer churn", not the
submitted text. -/
theorem claim5_counterexample :
    submitOutcome.2 = some (generateMockResults "revenue trends") ∧
    settledState.queries.map (fun item => item.query) = ["customer churn"] ∧
    "customer churn" ≠ "revenue trends" := by
  refine ⟨rfl, rfl, by decide⟩

/-- The residual query-text/suggestion-mode invariant: it can only be
stated for a non-empty current query. -/
def suggestionModeInv (s : DashboardState) : Prop :=
  s.currentQuery ≠ "" → s.suggestionMode = jsStartsWith s.currentQuery "/"

/-- Each reducer transition preserves the residual invariant:
`SET_CURRENT_QUERY` re-establishes it, `PROCESS_QUERY_SUCCESS` empties the
query text (making it vacuous), and the other actions change neither
field. -/
theorem suggestionModeInv_step (s : DashboardState) (a : DashAction)
    (h : suggestionModeInv s) : suggestionModeInv (queryReducer s a) := by
  cases a with
  | setCurrentQuery payload => intro _; rfl
  | submitQuery => exact h
  | processQuerySuccess payload now => intro h'; exact absurd rfl h'
  | processQueryFailure payload => exact h
  | clearHistory => exact h

/-- The residual invariant holds along every action sequence. -/
theorem suggestionModeInv_run (acts : List DashAction) :
    ∀ s : DashboardState, suggestionModeInv s →
      suggestionModeInv (acts.foldl queryReducer s) := by
  induction acts with
  | nil => exact fun s h => h
  | cons a rest ih => exact fun s h => ih _ (suggestionModeInv_step s a h)

/-- Claim C4 (amended): in every reachable state whose current query text
is non-empty, `suggestionMode` is true iff the text starts with '/'.  (The
unrestricted iff fails: `PROCESS_QUERY_SUCCESS` clears the text without
resetting `suggestionMode`, see the counterexample.) -/
theorem claim4_suggestion_mode_amended (acts : List DashAction)
    (h : (runActions acts).currentQuery ≠ "") :
    (runActions acts).suggestionMode = jsStartsWith (runActions acts).currentQuery "/" :=
  suggestionModeInv_run acts initialState (fun h0 => absurd rfl h0) h

/-- Witness for C4 (amended): after typing "/revenue" the mode flag equals
the start-with-slash test (both true). -/
theorem claim4_suggestion_mode_witness :
    (runActions [.setCurrentQuery "/revenue"]).suggestionMode =
      jsStartsWith (runActions [.setCurrentQuery "/revenue"]).currentQuery "/" :=
  claim4_suggestion_mode_amended [.setCurrentQuery "/revenue"] (by decide)

/-- A trace that types a slash command, submits it, and lets it succeed. -/
def commandRoundTrip : List DashAction :=
  [ .setCurrentQuery "/revenue",
    .submitQuery,
    .processQuerySuccess (generateMockResults "/revenue") "1/1/2024, 11:00:00 AM" ]

/-- Counterexample for C4 as stated: after the success transition the
query text is empty (hence does not start with '/') while
`suggestionMode` is still true, refuting the unrestricted iff over
reachable states. -/
theorem claim4_suggestion_mode_counterexample :
    (runActions commandRoundTrip).suggestionMode = true ∧
    jsStartsWith (runActions commandRoundTrip).currentQuery "/" = false :=
  ⟨rfl, rfl⟩

/-- The insight selection as the specification words it — an ordered rule
list, first match wins, with a fixed fallback — in the amended,
case-SENSITIVE reading forced by the code (the source tests
`q.includes('revenue')` on the raw query; the original claim's
case-insensitive reading is refuted by the counterexample below).  The
revenue sentence reads the growth field through the same `ToNumber`
coercions the code applies, and "increased" is chosen exactly when the
coerced growth is strictly positive. -/
def insightByOrderedRules (query : String) (results : InsightResults) : String :=
  if jsIncludes query "revenue" then
    "Revenue " ++ (if jsGtZero results.summary.averageGrowth then "increased" else "decreased")
      ++ " by " ++ jsAbsNumberString results.summary.averageGrowth ++ "%"
  else if jsIncludes query "customer" then
    "Customer base shows "
      ++ (if 1500 < results.summary.totalCustomers then "strong" else "moderate")
      ++ " growth"
  else if jsIncludes query "product" then
    "Product portfolio demonstrates consistent performance"
  else "General performance remains stable"

/-- Claim C3 (amended): for every query string and result summary, the
insight generator selects by first-match-wins over the ordered
revenue/customer/product rules with CASE-SENSITIVE containment (not the
claimed case-insensitive containment), emitting the fallback sentence when
no rule matches. -/
theorem claim3_insights_amended (query : String) (results : InsightResults) :
    generateInsights query results = insightByOrderedRules query results := by
  unfold generateInsights insightRules insightByOrderedRules
  cases h1 : jsIncludes query "revenue" <;>
    cases h2 : jsIncludes query "customer" <;>
      cases h3 : jsIncludes query "product" <;>
        simp [List.find?, h1, h2, h3]

/-- Counterexample for C3 as stated: the query "Revenue drivers" contains
"revenue" case-insensitively, yet the generator emits the fallback
sentence rather than the revenue sentence, because the code's containment
test is case-sensitive. -/
theorem claim3_insights_counterexample :
    jsIncludes (sLower "Revenue drivers") "revenue" = true ∧
    jsIncludes "Revenue drivers" "revenue" = false ∧
    generateInsights "Revenue drivers" ⟨⟨"51.11", 5700⟩⟩ =
      "General performance remains stable" := by
  refine ⟨by decide, by decide, ?_⟩
  have hr : jsIncludes "Revenue drivers" "revenue" = false := by decide
  have hc : jsIncludes "Revenue drivers" "customer" = false := by decide
  have hp : jsIncludes "Revenue drivers" "product" = false := by decide
  simp [generateInsights, insightRules, List.find?, hr, hc, hp]

/-- The free-text relevance score as the specification words it: 10 if the
lowercase phrase contains the full lowercase query as a substring, plus 5
per whitespace-delimited keyword of length > 2 (extracted from the query)
contained in the lowercase phrase. -/
def specSuggestionScore (value phrase : String) : ℕ :=
  (if jsIncludes (sLower phrase) (sLower value) then 10 else 0) +
    5 * (((jsSplitWhitespace (sLower value)).filter (fun word => 2 < word.length)).countP
      (fun keyword => jsIncludes (sLower phrase) keyword))

/-- The suggestion computation as the specification words it: in command
mode (query starts with '/'), exactly the shortcut entries whose token
case-insensitively contains the full query, in mapping order, untruncated;
in free-text mode with a non-empty trimmed query, the phrases with
positive `specSuggestionScore`, stably sorted by descending score,
truncated to the top 7; otherwise the empty list. -/
def specSuggestions (value : String) : List Suggestion :=
  if jsStartsWith value "/" then
    (COMMAND_SHORTCUTS.filter
        (fun cmd => jsIncludes (sLower cmd.1) (sLower value))).map
      (fun cmd => Suggestion.command cmd.1 cmd.2)
  else if 0 < (jsTrim value).length then
    ((((AI_SUGGESTIONS.map (fun phrase => (phrase, specSuggestionScore value phrase))).filter
          (fun item => 0 < item.2)).mergeSort
        (fun a b => decide (b.2 ≤ a.2))).map
      (fun item => Suggestion.phrase item.1)).take 7
  else []

/-- The code's keyword fold adds 5 once per matching keyword: it equals
the base plus 5 times the count of matching keywords. -/
theorem foldl_keyword_score (l : List String) (p : String → Bool) (b : ℕ) :
    l.foldl (fun sc keyword => if p keyword then sc + 5 else sc) b =
      b + 5 * l.countP p := by
  induction l generalizing b with
  | nil => simp
  | cons a t ih =>
      by_cases h : p a
      · simp only [List.foldl_cons, List.countP_cons, h, if_true, if_pos h, ih]
        ring
      · simp only [List.foldl_cons, List.countP_cons, h, if_neg h, ih]
        simp [h]

/-- Claim C7: the suggestion computation equals the specification's
description — command-mode filtering by case-insensitive containment in
mapping order without truncation; free-text scoring (10 for containing
the whole query, plus 5 per matching keyword of length > 2), dropping of
zero scores, stable descending sort, truncation to 7; and no suggestions
for a blank non-command query. -/
theorem claim7_suggestions (value : String) :
    handleQueryChangeSuggestions value = specSuggestions value := by
  simp only [handleQueryChangeSuggestions, specSuggestions, specSuggestionScore,
    foldl_keyword_score]
